import Mathlib

set_option autoImplicit false

/-!
Verification of the offline-first POI synchronization engine
(`src/hooks/usePOIStorage.ts` together with `src/api/poiService.ts` and the
`POI` type of `src/types/poi.ts`).

The engine keeps three pieces of persistent/observable state: the in-memory
snapshot (`pois`, the React state), the persisted snapshot blob (AsyncStorage
key `@GeoTracker:pois`, modelled as `storedPois`), and the persisted pending
operation queue (AsyncStorage key `@GeoTracker:syncQueue`, modelled as
`queue`).  Remote calls are modelled by an oracle (`Remote`) whose fields give
the outcome of each endpoint; every engine operation additionally returns the
trace of remote calls it dispatched, so that ordering/dispatch claims can be
stated.  JavaScript `Date` values are modelled as milliseconds since the
epoch (a `Nat`); coordinates are modelled as integers, which is faithful for
the claims at hand (the only numeric coercion in the code, `Number(x) || 0`,
is the identity on every number except `0` and `NaN`).
-/

namespace GeoTracker

/-- POI record as declared in `src/types/poi.ts`: `id`, `name`,
`description`, `latitude`, `longitude`, `createdAt`. -/
structure POI where
  id : String
  name : String
  description : String
  latitude : Int
  longitude : Int
  createdAt : Nat
deriving DecidableEq, Repr

/-- Draft record: `NewPOI = Omit<POI, 'id' | 'createdAt'>`. -/
structure NewPOI where
  name : String
  description : String
  latitude : Int
  longitude : Int
deriving DecidableEq, Repr

/-- An update payload of type `Partial<POI>`: every field optional.  The
`id` field of the object actually sent is always overwritten with the target
id by `updatePOI`, so it is carried separately where needed. -/
structure PartialPOI where
  name? : Option String
  description? : Option String
  latitude? : Option Int
  longitude? : Option Int
  createdAt? : Option Nat
deriving DecidableEq, Repr

/-- Spread semantics of the optimistic update in `updatePOI`: the entry for
`id` becomes the spread of the old record with the update payload (fields
present in the payload win) and with its `id` field forced to `id`. -/
def applyUpdates (p : POI) (u : PartialPOI) (id : String) : POI :=
  { id := id
    name := u.name?.getD p.name
    description := u.description?.getD p.description
    latitude := u.latitude?.getD p.latitude
    longitude := u.longitude?.getD p.longitude
    createdAt := u.createdAt?.getD p.createdAt }

/-- A pending operation as built by `addToSyncQueue(type, data)`: the stored
object carries a type tag, an id, a data payload and an enqueue timestamp.
Each constructor captures the payload shape used for that tag: the full
record for `ADD`, the partial fields plus target id for `UPDATE`, and the
bare id for `DELETE`. -/
inductive SyncOp where
  | ADD (data : POI) (timestamp : Nat)
  | UPDATE (data : PartialPOI) (id : String) (timestamp : Nat)
  | DELETE (id : String) (timestamp : Nat)
deriving DecidableEq, Repr

/-- Outcome classification for a failed remote call: a transient transport
or network failure (timeouts included), or an HTTP 404 / not-found response
surfaced by `poiService` as a thrown error. -/
inductive RemoteError where
  | network
  | notFound
deriving DecidableEq, Repr

/-- Oracle for the remote POI service (`src/api/poiService.ts`), giving the
outcome of each endpoint the engine uses.  `createPOI` and `updatePOI`
resolve to the server's record on success; `getPOIs` resolves to the
authoritative list. -/
structure Remote where
  createPOI : POI → Except RemoteError POI
  updatePOI : String → PartialPOI → Except RemoteError POI
  deletePOI : String → Except RemoteError Unit
  getPOIs : Except RemoteError (List POI)

/-- One dispatched remote call, recorded in the trace an engine operation
emits. -/
inductive RemoteCall where
  | createCall (data : POI)
  | updateCall (id : String) (data : PartialPOI)
  | deleteCall (id : String)
  | listCall
deriving DecidableEq, Repr

/-- Engine state: the React snapshot state `pois`, the persisted snapshot
blob `storedPois`, the persisted pending queue `queue`, and the two status
flags. -/
structure EngineState where
  pois : List POI
  storedPois : List POI
  queue : List SyncOp
  isOnline : Bool
  syncInProgress : Bool
deriving DecidableEq, Repr

/-- The remote call `processSyncQueue` dispatches for a queued operation:
`createPOI(op.data)`, `updatePOI(op.data.id, op.data)` or
`deletePOI(op.id)`. -/
def callOf : SyncOp → RemoteCall
  | .ADD d _ => .createCall d
  | .UPDATE u id _ => .updateCall id u
  | .DELETE id _ => .deleteCall id

/-- Outcome of dispatching a queued operation against the oracle, with the
success payload discarded (the replay loop ignores it). -/
def opResult (r : Remote) : SyncOp → Except RemoteError Unit
  | .ADD d _ => (r.createPOI d).map fun _ => ()
  | .UPDATE u id _ => (r.updatePOI id u).map fun _ => ()
  | .DELETE id _ => r.deletePOI id

/-- Whether dispatching a queued operation succeeds. -/
def opOk (r : Remote) (op : SyncOp) : Bool :=
  match opResult r op with
  | .ok _ => true
  | .error _ => false

/-- The `for (const op of operations)` loop of `processSyncQueue`: dispatch
each operation in order; on the first failure the caught error is re-thrown,
which exits the loop.  Returns the trace of dispatched calls and whether
every operation succeeded. -/
def drainQueue (r : Remote) : List SyncOp → List RemoteCall × Bool
  | [] => ([], true)
  | op :: rest =>
    if opOk r op then
      let res := drainQueue r rest
      (callOf op :: res.1, res.2)
    else
      ([callOf op], false)

/-- Replay (`processSyncQueue`): a no-op when a sync is already in flight or
the stored queue is empty or missing; otherwise dispatch the queued
operations in order, stopping at the first failure.  Only when every
operation succeeded is the queue key removed (`AsyncStorage.removeItem`);
the outer catch swallows the re-thrown error, leaving all state as it was.
The function never touches `pois`, `storedPois` or `isOnline`. -/
def processSyncQueue (r : Remote) (s : EngineState) : EngineState × List RemoteCall :=
  if s.syncInProgress then (s, [])
  else if s.queue.isEmpty then (s, [])
  else
    let res := drainQueue r s.queue
    if res.2 then ({ s with queue := [] }, res.1)
    else (s, res.1)

/-- The record `addPOI` builds from a draft: the draft's fields, a freshly
generated id (`Crypto.randomUUID()`, passed in here as `tempId`) and the
current time as `createdAt`. -/
def buildNewPOI (d : NewPOI) (tempId : String) (now : Nat) : POI :=
  { id := tempId
    name := d.name
    description := d.description
    latitude := d.latitude
    longitude := d.longitude
    createdAt := now }

/-- Mutation `addPOI(poiData)`: append the new record to the snapshot and
persist (optimistic apply), then attempt the remote create.  On success the
snapshot entry whose id is the temporary id is replaced by the server's
record and the result is the server record; on failure an `ADD` operation
carrying the full record is appended to the queue and the result is the
local record. -/
def addPOI (r : Remote) (tempId : String) (now : Nat) (d : NewPOI)
    (s : EngineState) : EngineState × List RemoteCall × POI :=
  let newPOI := buildNewPOI d tempId now
  let updatedPOIs := s.pois ++ [newPOI]
  let s1 := { s with pois := updatedPOIs, storedPois := updatedPOIs }
  match r.createPOI newPOI with
  | .ok savedPOI =>
    let updatedList := updatedPOIs.map fun poi =>
      if poi.id = newPOI.id then savedPOI else poi
    ({ s1 with pois := updatedList, storedPois := updatedList },
      [.createCall newPOI], savedPOI)
  | .error _ =>
    ({ s1 with queue := s1.queue ++ [.ADD newPOI now] },
      [.createCall newPOI], newPOI)

/-- Result value of `updatePOI` as seen by the caller: the server's record
on success, or (on failure) the partial update object cast to `POI`
(`return updatedPOI as POI`). -/
inductive UpdateResult where
  | server (p : POI)
  | localUpd (u : PartialPOI) (id : String)
deriving DecidableEq, Repr

/-- Mutation `updatePOI(id, updates)`: apply the partial fields to the
snapshot entry for `id` and persist (optimistic apply), then attempt the
remote update.  On success the entry is replaced by the server's record; on
failure an `UPDATE` operation is appended to the queue. -/
def updatePOI (r : Remote) (now : Nat) (id : String) (updates : PartialPOI)
    (s : EngineState) : EngineState × List RemoteCall × UpdateResult :=
  let updatedPOIs := s.pois.map fun poi =>
    if poi.id = id then applyUpdates poi updates id else poi
  let s1 := { s with pois := updatedPOIs, storedPois := updatedPOIs }
  match r.updatePOI id updates with
  | .ok savedPOI =>
    let finalList := updatedPOIs.map fun poi =>
      if poi.id = id then savedPOI else poi
    ({ s1 with pois := finalList, storedPois := finalList },
      [.updateCall id updates], .server savedPOI)
  | .error _ =>
    ({ s1 with queue := s1.queue ++ [.UPDATE updates id now] },
      [.updateCall id updates], .localUpd updates id)

/-- Mutation `deletePOI(id)`: remove the record from the snapshot and
persist (optimistic apply), then attempt the remote delete.  On failure a
`DELETE` operation is appended to the queue. -/
def deletePOI (r : Remote) (now : Nat) (id : String) (s : EngineState) :
    EngineState × List RemoteCall :=
  let updatedPOIs := s.pois.filter fun poi => poi.id != id
  let s1 := { s with pois := updatedPOIs, storedPois := updatedPOIs }
  match r.deletePOI id with
  | .ok _ => (s1, [.deleteCall id])
  | .error _ => ({ s1 with queue := s1.queue ++ [.DELETE id now] }, [.deleteCall id])

/-- Manual refresh `syncWithServer`: fetch the authoritative remote list;
on success replace the snapshot wholesale, persist it, set the online flag,
and only then process the pending queue; the call resolves to `true`.  On
fetch failure the online flag is cleared and the call resolves to `false`
without touching snapshot or queue. -/
def syncWithServer (r : Remote) (s : EngineState) :
    EngineState × List RemoteCall × Bool :=
  match r.getPOIs with
  | .ok onlinePOIs =>
    let s1 := { s with pois := onlinePOIs, storedPois := onlinePOIs, isOnline := true }
    let res := processSyncQueue r s1
    (res.1, .listCall :: res.2, true)
  | .error _ => ({ s with isOnline := false }, [.listCall], false)

/-- Shape of one element of the persisted snapshot blob after
`JSON.parse`: ids and names are strings, coordinates numbers, and the
`createdAt` Date has become its ISO string, which `new Date(...)` restores
exactly (millisecond precision); it is therefore modelled by the same
millisecond value. -/
structure StoredPOI where
  id : String
  name : String
  description : String
  latitude : Int
  longitude : Int
  createdAt : Nat
deriving DecidableEq, Repr

/-- Serialization of one record by `JSON.stringify`: field-for-field, with
the `createdAt` Date rendered as its ISO string. -/
def serializePOI (p : POI) : StoredPOI :=
  { id := p.id
    name := p.name
    description := p.description
    latitude := p.latitude
    longitude := p.longitude
    createdAt := p.createdAt }

/-- The `ensurePOI` helper applied to a parsed record on load.  On strings
the JavaScript fallback `x || default` yields the default exactly when the
string is empty; on numbers `Number(x) || 0` yields `0` exactly when `x`
is `0` or `NaN` (for an integer model, only `0`).  A string id is kept
as is, and `new Date(isoString)` restores the original instant. -/
def ensurePOI (p : StoredPOI) : POI :=
  { id := p.id
    name := if p.name = "" then "Unnamed POI" else p.name
    description := if p.description = "" then "" else p.description
    latitude := if p.latitude = 0 then 0 else p.latitude
    longitude := if p.longitude = 0 then 0 else p.longitude
    createdAt := p.createdAt }

/-- Persisting a snapshot: `JSON.stringify` over the list. -/
def saveSnapshot (l : List POI) : List StoredPOI := l.map serializePOI

/-- Reloading a snapshot on restart (`loadPOIs`, offline branch):
`JSON.parse` then `map(ensurePOI)`. -/
def loadSnapshot (l : List StoredPOI) : List POI := l.map ensurePOI

/-- A record carries exactly the fields of a draft. -/
def matchesDraft (d : NewPOI) (p : POI) : Prop :=
  p.name = d.name ∧ p.description = d.description ∧
    p.latitude = d.latitude ∧ p.longitude = d.longitude

instance (d : NewPOI) (p : POI) : Decidable (matchesDraft d p) := by
  unfold matchesDraft
  exact inferInstance

/-- Number of snapshot records whose fields match a draft. -/
def countMatches (d : NewPOI) (l : List POI) : Nat :=
  l.countP fun p => decide (matchesDraft d p)

/-! ### General lemmas about the replay loop -/

theorem drainQueue_calls (r : Remote) (q : List SyncOp) :
    (drainQueue r q).1 =
      (q.takeWhile (opOk r) ++ (q.dropWhile (opOk r)).take 1).map callOf := by
  induction q with
  | nil => rfl
  | cons op rest ih =>
    by_cases hop : opOk r op
    · simp [drainQueue, hop, List.takeWhile_cons, List.dropWhile_cons, ih]
    · simp [drainQueue, hop, List.takeWhile_cons, List.dropWhile_cons]

theorem drainQueue_ok (r : Remote) (q : List SyncOp) :
    (drainQueue r q).2 = q.all (opOk r) := by
  induction q with
  | nil => rfl
  | cons op rest ih =>
    by_cases hop : opOk r op
    · simp [drainQueue, hop, ih]
    · simp [drainQueue, hop]

theorem processSyncQueue_calls (r : Remote) (s : EngineState)
    (h : s.syncInProgress = false) :
    (processSyncQueue r s).2 = (drainQueue r s.queue).1 := by
  unfold processSyncQueue
  rw [h]
  by_cases hq : s.queue.isEmpty
  · rw [List.isEmpty_iff] at hq
    simp [hq, drainQueue]
  · simp only [Bool.false_eq_true, if_false, hq]
    by_cases hall : (drainQueue r s.queue).2 <;> simp [hall]

theorem processSyncQueue_queue (r : Remote) (s : EngineState)
    (h : s.syncInProgress = false) :
    (processSyncQueue r s).1.queue = if s.queue.all (opOk r) then [] else s.queue := by
  unfold processSyncQueue
  rw [h]
  by_cases hq : s.queue.isEmpty
  · rw [List.isEmpty_iff] at hq
    simp [hq]
  · simp only [Bool.false_eq_true, if_false, hq]
    rw [← drainQueue_ok r s.queue]
    by_cases hall : (drainQueue r s.queue).2 <;> simp [hall]

theorem processSyncQueue_state_cases (r : Remote) (s : EngineState) :
    (processSyncQueue r s).1 = s ∨
      (processSyncQueue r s).1 = { s with queue := [] } := by
  unfold processSyncQueue
  split
  · exact Or.inl rfl
  · split
    · exact Or.inl rfl
    · dsimp only
      split
      · exact Or.inr rfl
      · exact Or.inl rfl

theorem processSyncQueue_frame (r : Remote) (s : EngineState) :
    (processSyncQueue r s).1.pois = s.pois ∧
      (processSyncQueue r s).1.storedPois = s.storedPois ∧
      (processSyncQueue r s).1.isOnline = s.isOnline ∧
      (processSyncQueue r s).1.syncInProgress = s.syncInProgress := by
  rcases processSyncQueue_state_cases r s with h | h <;> rw [h] <;>
    exact ⟨rfl, rfl, rfl, rfl⟩

theorem callOf_ne_listCall (op : SyncOp) : callOf op ≠ RemoteCall.listCall := by
  cases op <;> simp [callOf]

theorem listCall_not_mem_drainQueue (r : Remote) (q : List SyncOp) :
    RemoteCall.listCall ∉ (drainQueue r q).1 := by
  rw [drainQueue_calls]
  intro hmem
  rcases List.mem_map.mp hmem with ⟨op, _, hop⟩
  exact callOf_ne_listCall op hop

theorem map_ite_id_of_ne (id : String) (f : POI → POI) (l : List POI)
    (h : ∀ p ∈ l, p.id ≠ id) :
    (l.map fun poi => if poi.id = id then f poi else poi) = l := by
  induction l with
  | nil => rfl
  | cons p rest ih =>
    simp only [List.map_cons]
    rw [if_neg (h p (List.mem_cons_self p rest)),
      ih fun q hq => h q (List.mem_cons_of_mem p hq)]

theorem filter_ne_id_of_ne (id : String) (l : List POI)
    (h : ∀ p ∈ l, p.id ≠ id) :
    (l.filter fun poi => poi.id != id) = l := by
  refine List.filter_eq_self.mpr fun p hp => ?_
  simpa using h p hp

theorem map_replace_of_ne (id : String) (q : POI) (l : List POI)
    (h : ∀ p ∈ l, p.id ≠ id) :
    (l.map fun poi => if poi.id = id then q else poi) = l := by
  induction l with
  | nil => rfl
  | cons p rest ih =>
    simp only [List.map_cons]
    rw [if_neg (h p (List.mem_cons_self p rest)),
      ih fun x hx => h x (List.mem_cons_of_mem p hx)]

/-! ### Characterizations of the three mutation operations -/

theorem addPOI_ok (r : Remote) (tempId : String) (now : Nat) (d : NewPOI)
    (s : EngineState) (saved : POI)
    (hok : r.createPOI (buildNewPOI d tempId now) = .ok saved) :
    addPOI r tempId now d s =
      ({ s with
          pois := (s.pois ++ [buildNewPOI d tempId now]).map fun poi =>
            if poi.id = tempId then saved else poi
          storedPois := (s.pois ++ [buildNewPOI d tempId now]).map fun poi =>
            if poi.id = tempId then saved else poi },
        [.createCall (buildNewPOI d tempId now)], saved) := by
  unfold addPOI
  dsimp only
  rw [hok]
  rfl

theorem addPOI_err (r : Remote) (tempId : String) (now : Nat) (d : NewPOI)
    (s : EngineState) (e : RemoteError)
    (herr : r.createPOI (buildNewPOI d tempId now) = .error e) :
    addPOI r tempId now d s =
      ({ s with
          pois := s.pois ++ [buildNewPOI d tempId now]
          storedPois := s.pois ++ [buildNewPOI d tempId now]
          queue := s.queue ++ [.ADD (buildNewPOI d tempId now) now] },
        [.createCall (buildNewPOI d tempId now)], buildNewPOI d tempId now) := by
  unfold addPOI
  dsimp only
  rw [herr]

theorem updatePOI_ok (r : Remote) (now : Nat) (id : String) (updates : PartialPOI)
    (s : EngineState) (saved : POI)
    (hok : r.updatePOI id updates = .ok saved) :
    updatePOI r now id updates s =
      ({ s with
          pois := (s.pois.map fun poi =>
            if poi.id = id then applyUpdates poi updates id else poi).map fun poi =>
              if poi.id = id then saved else poi
          storedPois := (s.pois.map fun poi =>
            if poi.id = id then applyUpdates poi updates id else poi).map fun poi =>
              if poi.id = id then saved else poi },
        [.updateCall id updates], .server saved) := by
  unfold updatePOI
  dsimp only
  rw [hok]

theorem updatePOI_err (r : Remote) (now : Nat) (id : String) (updates : PartialPOI)
    (s : EngineState) (e : RemoteError)
    (herr : r.updatePOI id updates = .error e) :
    updatePOI r now id updates s =
      ({ s with
          pois := s.pois.map fun poi =>
            if poi.id = id then applyUpdates poi updates id else poi
          storedPois := s.pois.map fun poi =>
            if poi.id = id then applyUpdates poi updates id else poi
          queue := s.queue ++ [.UPDATE updates id now] },
        [.updateCall id updates], .localUpd updates id) := by
  unfold updatePOI
  dsimp only
  rw [herr]

theorem deletePOI_ok (r : Remote) (now : Nat) (id : String) (s : EngineState)
    (hok : r.deletePOI id = .ok ()) :
    deletePOI r now id s =
      ({ s with
          pois := s.pois.filter fun poi => poi.id != id
          storedPois := s.pois.filter fun poi => poi.id != id },
        [.deleteCall id]) := by
  unfold deletePOI
  dsimp only
  rw [hok]

theorem deletePOI_err (r : Remote) (now : Nat) (id : String) (s : EngineState)
    (e : RemoteError) (herr : r.deletePOI id = .error e) :
    deletePOI r now id s =
      ({ s with
          pois := s.pois.filter fun poi => poi.id != id
          storedPois := s.pois.filter fun poi => poi.id != id
          queue := s.queue ++ [.DELETE id now] },
        [.deleteCall id]) := by
  unfold deletePOI
  dsimp only
  rw [herr]

/-! ### Concrete fixtures used in witnesses and counterexamples -/

/-- A record with id "A", as enqueued by a failed create. -/
def aPOI : POI :=
  { id := "A", name := "Cafe", description := "", latitude := 1, longitude := 2,
    createdAt := 0 }

/-- A partial update renaming record "A". -/
def updA : PartialPOI :=
  { name? := some "Cafe2", description? := none, latitude? := none,
    longitude? := none, createdAt? := none }

/-- An oracle for a fully unreachable remote: every call fails with a
network error. -/
def failingRemote : Remote :=
  { createPOI := fun _ => .error .network
    updatePOI := fun _ _ => .error .network
    deletePOI := fun _ => .error .network
    getPOIs := .error .network }

/-- An engine state holding a pending Create(A) followed by Update(A),
as produced by an offline add-then-update session. -/
def stateCreateUpd : EngineState :=
  { pois := [aPOI], storedPois := [aPOI],
    queue := [.ADD aPOI 0, .UPDATE updA "A" 1],
    isOnline := false, syncInProgress := false }

/-! ### C1 -/

/-- C1: during a single replay, queued operations are dispatched strictly in
enqueue (FIFO) order and draining halts at the first remote failure: the
trace of dispatched calls is exactly the longest successful prefix of the
queue followed by the first failing operation (if any), each translated to
its remote call, so at most one call beyond the successful prefix is ever
made and no operation enqueued after the failed one is dispatched. -/
theorem replay_fifo_halts_at_first_failure (r : Remote) (s : EngineState)
    (h : s.syncInProgress = false) :
    (processSyncQueue r s).2 =
        (s.queue.takeWhile (opOk r) ++ (s.queue.dropWhile (opOk r)).take 1).map callOf ∧
      (processSyncQueue r s).2.length ≤ (s.queue.takeWhile (opOk r)).length + 1 := by
  have hc := processSyncQueue_calls r s h
  rw [hc, drainQueue_calls]
  refine ⟨rfl, ?_⟩
  simp only [List.length_map, List.length_append]
  have := List.length_take_le 1 (s.queue.dropWhile (opOk r))
  omega

/-- Witness for C1: with Create(A) then Update(A) queued and a remote where
the create fails, only the create is dispatched and the update is never
dispatched. -/
theorem replay_fifo_halts_at_first_failure_witness :
    (stateCreateUpd.syncInProgress = false ∧
      (processSyncQueue failingRemote stateCreateUpd).2 =
        (stateCreateUpd.queue.takeWhile (opOk failingRemote) ++
          (stateCreateUpd.queue.dropWhile (opOk failingRemote)).take 1).map callOf) ∧
      (processSyncQueue failingRemote stateCreateUpd).2 = [.createCall aPOI] ∧
      RemoteCall.updateCall "A" updA ∉ (processSyncQueue failingRemote stateCreateUpd).2 :=
  ⟨⟨rfl, (replay_fifo_halts_at_first_failure failingRemote stateCreateUpd rfl).1⟩,
    by decide, by decide⟩

/-! ### C2 -/

/-- An oracle where creates and deletes succeed but updates fail. -/
def updateFailingRemote : Remote :=
  { createPOI := fun p => .ok p
    updatePOI := fun _ _ => .error .network
    deletePOI := fun _ => .ok ()
    getPOIs := .ok [] }

/-- An engine state queueing three operations of which the first succeeds
under `updateFailingRemote` and the second fails. -/
def stateThree : EngineState :=
  { pois := [], storedPois := [],
    queue := [.ADD aPOI 0, .UPDATE updA "A" 1, .DELETE "C" 2],
    isOnline := false, syncInProgress := false }

/-- Counterexample to C2: with a queue of three operations where the first
succeeds during replay and the second fails, the queue after replay still
contains all three operations — in particular the successfully dispatched
first operation was NOT removed, so the queue is not `[failed op, rest]` as
the claim states. -/
theorem replay_partial_drain_keeps_queue_counterexample :
    opOk updateFailingRemote (SyncOp.ADD aPOI 0) = true ∧
      opOk updateFailingRemote (SyncOp.UPDATE updA "A" 1) = false ∧
      (processSyncQueue updateFailingRemote stateThree).1.queue = stateThree.queue ∧
      (processSyncQueue updateFailingRemote stateThree).1.queue ≠
        [SyncOp.UPDATE updA "A" 1, SyncOp.DELETE "C" 2] := by
  refine ⟨by decide, by decide, by decide, by decide⟩

/-- C2 amended: after a `replay()` that halts at the first failed operation
the Queue is left exactly as it was — successfully dispatched operations
are not removed; the Queue is cleared, in full, only when every queued
operation succeeds. -/
theorem replay_queue_all_or_nothing (r : Remote) (s : EngineState)
    (h : s.syncInProgress = false) :
    (processSyncQueue r s).1.queue =
      if s.queue.all (opOk r) then [] else s.queue :=
  processSyncQueue_queue r s h

/-- Witness for the amended C2 at the three-operation fixture: the second
operation fails, so the whole queue survives. -/
theorem replay_queue_all_or_nothing_witness :
    (stateThree.syncInProgress = false ∧
      (processSyncQueue updateFailingRemote stateThree).1.queue =
        if stateThree.queue.all (opOk updateFailingRemote) then [] else stateThree.queue) ∧
      (processSyncQueue updateFailingRemote stateThree).1.queue = stateThree.queue :=
  ⟨⟨rfl, replay_queue_all_or_nothing updateFailingRemote stateThree rfl⟩, by decide⟩

/-! ### C3 -/

/-- The draft used in concrete scenarios. -/
def draftCafe : NewPOI :=
  { name := "Cafe", description := "", latitude := 1, longitude := 2 }

/-- Server record with server-assigned id "42" and the draft's fields. -/
def okServerPOI : POI :=
  { id := "42", name := "Cafe", description := "", latitude := 1, longitude := 2,
    createdAt := 7 }

/-- An oracle for a fully reachable remote: every call succeeds; creates and
updates resolve to `okServerPOI`. -/
def okRemote : Remote :=
  { createPOI := fun _ => .ok okServerPOI
    updatePOI := fun _ _ => .ok okServerPOI
    deletePOI := fun _ => .ok ()
    getPOIs := .ok [okServerPOI] }

/-- An engine state with nothing loaded and nothing queued. -/
def emptyState : EngineState :=
  { pois := [], storedPois := [], queue := [], isOnline := true,
    syncInProgress := false }

/-- C3: when the remote create succeeds after `addPOI`, reconciliation
replaces the temporary id of the matching Snapshot entry with the
server-assigned record in place: every pre-existing entry is untouched, the
reconciled entry keeps its (last) position so the snapshot is the old list
with the server record appended, exactly one entry was added overall, and no
entry with the temporary id remains — no duplicate temp-id/server-id pair is
ever produced.  (Hypotheses: the generated temporary id is fresh, and the
server assigns an id different from it.) -/
theorem addPOI_reconcile_in_place (r : Remote) (tempId : String) (now : Nat)
    (d : NewPOI) (s : EngineState) (saved : POI)
    (hfresh : ∀ p ∈ s.pois, p.id ≠ tempId)
    (hok : r.createPOI (buildNewPOI d tempId now) = .ok saved)
    (hid : saved.id ≠ tempId) :
    (addPOI r tempId now d s).1.pois = s.pois ++ [saved] ∧
      (addPOI r tempId now d s).1.storedPois = s.pois ++ [saved] ∧
      (addPOI r tempId now d s).1.pois.length = s.pois.length + 1 ∧
      ∀ p ∈ (addPOI r tempId now d s).1.pois, p.id ≠ tempId := by
  have hmap : ((s.pois ++ [buildNewPOI d tempId now]).map fun poi =>
      if poi.id = tempId then saved else poi) = s.pois ++ [saved] := by
    rw [List.map_append, map_replace_of_ne tempId saved s.pois hfresh]
    simp [buildNewPOI]
  rw [addPOI_ok r tempId now d s saved hok]
  dsimp only
  rw [hmap]
  refine ⟨rfl, rfl, by simp, ?_⟩
  intro p hp
  rcases List.mem_append.mp hp with h1 | h1
  · exact hfresh p h1
  · rw [List.mem_singleton] at h1
    subst h1
    exact hid

/-- Witness for C3 at the end-to-end fixture of the spec: a create that
succeeds with server id "42" leaves a single reconciled entry. -/
theorem addPOI_reconcile_in_place_witness :
    (addPOI okRemote "temp-1" 0 draftCafe emptyState).1.pois =
        emptyState.pois ++ [okServerPOI] ∧
      (addPOI okRemote "temp-1" 0 draftCafe emptyState).1.storedPois =
        emptyState.pois ++ [okServerPOI] ∧
      (addPOI okRemote "temp-1" 0 draftCafe emptyState).1.pois.length =
        emptyState.pois.length + 1 ∧
      ∀ p ∈ (addPOI okRemote "temp-1" 0 draftCafe emptyState).1.pois,
        p.id ≠ "temp-1" :=
  addPOI_reconcile_in_place okRemote "temp-1" 0 draftCafe emptyState okServerPOI
    (by decide) rfl (by decide)

/-! ### C4 -/

theorem buildNewPOI_matches (d : NewPOI) (tempId : String) (now : Nat) :
    matchesDraft d (buildNewPOI d tempId now) :=
  ⟨rfl, rfl, rfl, rfl⟩

theorem countMatches_append_of_none (d : NewPOI) (l : List POI) (p : POI)
    (h : ∀ q ∈ l, ¬ matchesDraft d q) :
    countMatches d (l ++ [p]) = if matchesDraft d p then 1 else 0 := by
  unfold countMatches
  rw [List.countP_append]
  have h0 : l.countP (fun q => decide (matchesDraft d q)) = 0 :=
    List.countP_eq_zero.mpr fun q hq => by simpa using h q hq
  rw [h0]
  by_cases hm : matchesDraft d p <;> simp [List.countP_cons, hm]

/-- Server record that does not preserve the draft's fields (the code
anticipates such server-side modifications and adopts them). -/
def renamedServerPOI : POI :=
  { id := "42", name := "Renamed", description := "", latitude := 1,
    longitude := 2, createdAt := 7 }

/-- An oracle whose create succeeds but returns a record with a modified
name. -/
def renamingRemote : Remote :=
  { createPOI := fun _ => .ok renamedServerPOI
    updatePOI := fun _ _ => .error .network
    deletePOI := fun _ => .ok ()
    getPOIs := .ok [] }

/-- Counterexample to C4: starting from an empty snapshot, `addPOI(d)` with
a remote create that succeeds but returns a record whose name differs from
the draft's leaves a snapshot containing the server record and zero records
matching `d` — not exactly one, so the claim fails for this remote
outcome. -/
theorem addPOI_match_counterexample :
    (addPOI renamingRemote "temp-1" 0 draftCafe emptyState).1.pois =
        [renamedServerPOI] ∧
      countMatches draftCafe
        (addPOI renamingRemote "temp-1" 0 draftCafe emptyState).1.pois = 0 :=
  ⟨by decide, by decide⟩

/-- C4 amended: after `addPOI(d)` exactly one record is appended at the end
of the Snapshot, carrying the fresh temporary id.  If the remote create
fails the appended record keeps the draft's fields, so a snapshot with no
pre-existing match contains exactly one record matching `d`; if the remote
create succeeds the appended entry is replaced by the server-returned
record, which matches `d` exactly when the server preserved the draft's
fields. -/
theorem addPOI_one_record_appended (r : Remote) (tempId : String) (now : Nat)
    (d : NewPOI) (s : EngineState)
    (hfresh : ∀ p ∈ s.pois, p.id ≠ tempId)
    (hnomatch : ∀ p ∈ s.pois, ¬ matchesDraft d p) :
    (∀ e, r.createPOI (buildNewPOI d tempId now) = .error e →
        (addPOI r tempId now d s).1.pois = s.pois ++ [buildNewPOI d tempId now] ∧
          countMatches d (addPOI r tempId now d s).1.pois = 1) ∧
      ∀ saved, r.createPOI (buildNewPOI d tempId now) = .ok saved →
        (addPOI r tempId now d s).1.pois = s.pois ++ [saved] ∧
          countMatches d (addPOI r tempId now d s).1.pois =
            if matchesDraft d saved then 1 else 0 := by
  constructor
  · intro e herr
    rw [addPOI_err r tempId now d s e herr]
    dsimp only
    rw [countMatches_append_of_none d s.pois _ hnomatch,
      if_pos (buildNewPOI_matches d tempId now)]
    exact ⟨rfl, rfl⟩
  · intro saved hok
    have hmap : ((s.pois ++ [buildNewPOI d tempId now]).map fun poi =>
        if poi.id = tempId then saved else poi) = s.pois ++ [saved] := by
      rw [List.map_append, map_replace_of_ne tempId saved s.pois hfresh]
      simp [buildNewPOI]
    rw [addPOI_ok r tempId now d s saved hok]
    dsimp only
    rw [hmap, countMatches_append_of_none d s.pois saved hnomatch]
    exact ⟨rfl, rfl⟩

/-- Witness for the amended C4: the end-to-end fixture with the remote
unreachable appends exactly one record matching the draft. -/
theorem addPOI_one_record_appended_witness :
    (addPOI failingRemote "temp-1" 0 draftCafe emptyState).1.pois =
        emptyState.pois ++ [buildNewPOI draftCafe "temp-1" 0] ∧
      countMatches draftCafe
        (addPOI failingRemote "temp-1" 0 draftCafe emptyState).1.pois = 1 :=
  (addPOI_one_record_appended failingRemote "temp-1" 0 draftCafe emptyState
    (by decide) (by decide)).1 .network rfl

/-! ### C5 -/

theorem syncWithServer_ok (r : Remote) (s : EngineState) (l : List POI)
    (hok : r.getPOIs = .ok l) :
    syncWithServer r s =
      ((processSyncQueue r
          { s with pois := l, storedPois := l, isOnline := true }).1,
        .listCall :: (processSyncQueue r
          { s with pois := l, storedPois := l, isOnline := true }).2,
        true) := by
  unfold syncWithServer
  dsimp only
  rw [hok]

/-- An engine state holding one pending Create, offline, as after a failed
`addPOI`. -/
def stateQueuedAdd : EngineState :=
  { pois := [aPOI], storedPois := [aPOI], queue := [.ADD aPOI 0],
    isOnline := false, syncInProgress := false }

/-- Counterexample to C5: with one queued Create and a remote where every
call succeeds, `processSyncQueue` (the replay entry point) drains the Queue
fully, yet no list fetch is dispatched, the Snapshot is left untouched (it
is not replaced by the remote list the oracle would return), nothing new is
persisted, and the online flag stays `false`. -/
theorem replay_full_drain_no_refresh_counterexample :
    (processSyncQueue okRemote stateQueuedAdd).1.queue = [] ∧
      RemoteCall.listCall ∉ (processSyncQueue okRemote stateQueuedAdd).2 ∧
      (processSyncQueue okRemote stateQueuedAdd).1.pois = stateQueuedAdd.pois ∧
      (processSyncQueue okRemote stateQueuedAdd).1.pois ≠ [okServerPOI] ∧
      (processSyncQueue okRemote stateQueuedAdd).1.storedPois =
        stateQueuedAdd.storedPois ∧
      (processSyncQueue okRemote stateQueuedAdd).1.isOnline = false :=
  ⟨by decide, by decide, by decide, by decide, by decide, by decide⟩

/-- C5 amended: replay (`processSyncQueue`) never fetches the remote list
and never touches the Snapshot, its persisted copy, or the online flag —
even when it drains the Queue fully it only clears the Queue.  The
wholesale refresh belongs to `syncWithServer`, which fetches the
authoritative list FIRST, replaces and persists the Snapshot and sets the
online flag, and only then drains the Queue; when the fetch succeeds it
resolves to `true` with the final snapshot being the fetched list. -/
theorem refresh_precedes_drain (r : Remote) (s : EngineState) (l : List POI)
    (h : s.syncInProgress = false) (hok : r.getPOIs = .ok l) :
    (syncWithServer r s).1.pois = l ∧
      (syncWithServer r s).1.storedPois = l ∧
      (syncWithServer r s).1.isOnline = true ∧
      (syncWithServer r s).2.1 =
        RemoteCall.listCall :: (drainQueue r s.queue).1 ∧
      (syncWithServer r s).2.2 = true ∧
      (processSyncQueue r s).1.pois = s.pois ∧
      (processSyncQueue r s).1.storedPois = s.storedPois ∧
      (processSyncQueue r s).1.isOnline = s.isOnline ∧
      RemoteCall.listCall ∉ (processSyncQueue r s).2 := by
  rw [syncWithServer_ok r s l hok]
  dsimp only
  have hframe := processSyncQueue_frame r
    { s with pois := l, storedPois := l, isOnline := true }
  have hframe0 := processSyncQueue_frame r s
  have hcalls := processSyncQueue_calls r
    { s with pois := l, storedPois := l, isOnline := true } h
  have hcalls0 := processSyncQueue_calls r s h
  refine ⟨hframe.1, hframe.2.1, hframe.2.2.1, ?_, rfl,
    hframe0.1, hframe0.2.1, hframe0.2.2.1, ?_⟩
  · rw [hcalls]
  · rw [hcalls0]
    exact listCall_not_mem_drainQueue r s.queue

/-- Witness for the amended C5 at a concrete fetchable remote and a queued
Create. -/
theorem refresh_precedes_drain_witness :
    (syncWithServer okRemote stateQueuedAdd).1.pois = [okServerPOI] ∧
      (syncWithServer okRemote stateQueuedAdd).1.storedPois = [okServerPOI] ∧
      (syncWithServer okRemote stateQueuedAdd).1.isOnline = true ∧
      (syncWithServer okRemote stateQueuedAdd).2.1 =
        RemoteCall.listCall :: (drainQueue okRemote stateQueuedAdd.queue).1 ∧
      (syncWithServer okRemote stateQueuedAdd).2.2 = true ∧
      (processSyncQueue okRemote stateQueuedAdd).1.pois = stateQueuedAdd.pois ∧
      (processSyncQueue okRemote stateQueuedAdd).1.storedPois =
        stateQueuedAdd.storedPois ∧
      (processSyncQueue okRemote stateQueuedAdd).1.isOnline =
        stateQueuedAdd.isOnline ∧
      RemoteCall.listCall ∉ (processSyncQueue okRemote stateQueuedAdd).2 :=
  refresh_precedes_drain okRemote stateQueuedAdd [okServerPOI] rfl rfl

/-! ### C6 -/

/-- An oracle where targeted updates and deletes answer 404 / not found. -/
def notFoundRemote : Remote :=
  { createPOI := fun p => .ok p
    updatePOI := fun _ _ => .error .notFound
    deletePOI := fun _ => .error .notFound
    getPOIs := .ok [] }

/-- An engine state with one queued Delete targeting id "x". -/
def stateQueuedDelete : EngineState :=
  { pois := [], storedPois := [], queue := [.DELETE "x" 0],
    isOnline := false, syncInProgress := false }

/-- Counterexample to C6: a queued Delete whose remote call answers 404 is
not dropped from the Queue — after replay the Queue still contains it
(whereas the claim requires the Queue to no longer contain the
operation). -/
theorem replay_notFound_kept_counterexample :
    opResult notFoundRemote (SyncOp.DELETE "x" 0) =
        Except.error RemoteError.notFound ∧
      (processSyncQueue notFoundRemote stateQueuedDelete).1.queue =
        [SyncOp.DELETE "x" 0] ∧
      SyncOp.DELETE "x" 0 ∈
        (processSyncQueue notFoundRemote stateQueuedDelete).1.queue :=
  ⟨rfl, by decide, by decide⟩

/-- C6 amended: a remote 404 / not-found response during replay is handled
exactly like any other remote failure — draining halts at that operation and
the operation remains in the Queue (it is retried on the next replay), not
dropped. -/
theorem replay_notFound_halts_not_dropped (r : Remote) (s : EngineState)
    (op : SyncOp) (rest : List SyncOp)
    (h : s.syncInProgress = false) (hq : s.queue = op :: rest)
    (hnf : opResult r op = .error .notFound) :
    (processSyncQueue r s).1.queue = s.queue ∧
      op ∈ (processSyncQueue r s).1.queue ∧
      (processSyncQueue r s).2 = [callOf op] := by
  have hop : opOk r op = false := by
    unfold opOk
    rw [hnf]
  have hall : s.queue.all (opOk r) = false := by
    rw [hq]
    simp [hop]
  have h1 := processSyncQueue_queue r s h
  rw [hall] at h1
  simp only [Bool.false_eq_true, if_false] at h1
  have h2 := processSyncQueue_calls r s h
  rw [hq] at h2
  simp only [drainQueue, hop, Bool.false_eq_true, if_false] at h2
  refine ⟨h1, ?_, h2⟩
  rw [h1, hq]
  exact List.mem_cons_self op rest

/-- Witness for the amended C6 at the queued-Delete fixture with a 404
remote. -/
theorem replay_notFound_halts_not_dropped_witness :
    (processSyncQueue notFoundRemote stateQueuedDelete).1.queue =
        stateQueuedDelete.queue ∧
      SyncOp.DELETE "x" 0 ∈
        (processSyncQueue notFoundRemote stateQueuedDelete).1.queue ∧
      (processSyncQueue notFoundRemote stateQueuedDelete).2 =
        [callOf (SyncOp.DELETE "x" 0)] :=
  replay_notFound_halts_not_dropped notFoundRemote stateQueuedDelete
    (SyncOp.DELETE "x" 0) [] rfl rfl rfl

/-! ### C7 -/

/-- C7: a remote failure during any of the three mutation calls is never
propagated: each call completes normally (its result is the documented
local value rather than a raised error — the embedding pattern-matches the
failing outcome exactly where the source catches the thrown error), the
optimistic local change stays applied to both the snapshot and its
persisted copy, and exactly one corresponding operation is appended to the
Queue. -/
theorem mutations_swallow_network_failures (r : Remote) (s : EngineState)
    (tempId : String) (now : Nat) (d : NewPOI)
    (uid : String) (u : PartialPOI) (did : String)
    (e1 e2 e3 : RemoteError)
    (h1 : r.createPOI (buildNewPOI d tempId now) = .error e1)
    (h2 : r.updatePOI uid u = .error e2)
    (h3 : r.deletePOI did = .error e3) :
    ((addPOI r tempId now d s).1.pois = s.pois ++ [buildNewPOI d tempId now] ∧
      (addPOI r tempId now d s).1.storedPois =
        s.pois ++ [buildNewPOI d tempId now] ∧
      (addPOI r tempId now d s).1.queue =
        s.queue ++ [.ADD (buildNewPOI d tempId now) now] ∧
      (addPOI r tempId now d s).2.2 = buildNewPOI d tempId now) ∧
    ((updatePOI r now uid u s).1.pois =
        (s.pois.map fun poi =>
          if poi.id = uid then applyUpdates poi u uid else poi) ∧
      (updatePOI r now uid u s).1.storedPois =
        (s.pois.map fun poi =>
          if poi.id = uid then applyUpdates poi u uid else poi) ∧
      (updatePOI r now uid u s).1.queue = s.queue ++ [.UPDATE u uid now] ∧
      (updatePOI r now uid u s).2.2 = UpdateResult.localUpd u uid) ∧
    ((deletePOI r now did s).1.pois =
        (s.pois.filter fun poi => poi.id != did) ∧
      (deletePOI r now did s).1.storedPois =
        (s.pois.filter fun poi => poi.id != did) ∧
      (deletePOI r now did s).1.queue = s.queue ++ [.DELETE did now]) := by
  refine ⟨?_, ?_, ?_⟩
  · rw [addPOI_err r tempId now d s e1 h1]
    exact ⟨rfl, rfl, rfl, rfl⟩
  · rw [updatePOI_err r now uid u s e2 h2]
    exact ⟨rfl, rfl, rfl, rfl⟩
  · rw [deletePOI_err r now did s e3 h3]
    exact ⟨rfl, rfl, rfl⟩

/-- Witness for C7 with the unreachable remote and concrete mutations. -/
theorem mutations_swallow_network_failures_witness :
    ((addPOI failingRemote "temp-9" 3 draftCafe stateQueuedAdd).1.pois =
        stateQueuedAdd.pois ++ [buildNewPOI draftCafe "temp-9" 3] ∧
      (addPOI failingRemote "temp-9" 3 draftCafe stateQueuedAdd).1.storedPois =
        stateQueuedAdd.pois ++ [buildNewPOI draftCafe "temp-9" 3] ∧
      (addPOI failingRemote "temp-9" 3 draftCafe stateQueuedAdd).1.queue =
        stateQueuedAdd.queue ++ [.ADD (buildNewPOI draftCafe "temp-9" 3) 3] ∧
      (addPOI failingRemote "temp-9" 3 draftCafe stateQueuedAdd).2.2 =
        buildNewPOI draftCafe "temp-9" 3) ∧
    ((updatePOI failingRemote 3 "A" updA stateQueuedAdd).1.pois =
        (stateQueuedAdd.pois.map fun poi =>
          if poi.id = "A" then applyUpdates poi updA "A" else poi) ∧
      (updatePOI failingRemote 3 "A" updA stateQueuedAdd).1.storedPois =
        (stateQueuedAdd.pois.map fun poi =>
          if poi.id = "A" then applyUpdates poi updA "A" else poi) ∧
      (updatePOI failingRemote 3 "A" updA stateQueuedAdd).1.queue =
        stateQueuedAdd.queue ++ [.UPDATE updA "A" 3] ∧
      (updatePOI failingRemote 3 "A" updA stateQueuedAdd).2.2 =
        UpdateResult.localUpd updA "A") ∧
    ((deletePOI failingRemote 3 "A" stateQueuedAdd).1.pois =
        (stateQueuedAdd.pois.filter fun poi => poi.id != "A") ∧
      (deletePOI failingRemote 3 "A" stateQueuedAdd).1.storedPois =
        (stateQueuedAdd.pois.filter fun poi => poi.id != "A") ∧
      (deletePOI failingRemote 3 "A" stateQueuedAdd).1.queue =
        stateQueuedAdd.queue ++ [.DELETE "A" 3]) :=
  mutations_swallow_network_failures failingRemote stateQueuedAdd "temp-9" 3
    draftCafe "A" updA "A" .network .network .network rfl rfl rfl

/-! ### C8 -/

/-- C8, evaluated at the failing input: while offline, `addPOI(draftCafe)`
queues a Create for the fresh temporary id "temp-1"; deleting that record —
whose only existence is this unsynced pending Create — attempts and fails a
remote delete and queues a Delete for "temp-1"; a later replay against a
reachable remote then dispatches `deletePOI("temp-1")`, a remote delete
call for an id the server never received, contradicting the claim. -/
theorem tempId_delete_is_replayed :
    (addPOI failingRemote "temp-1" 0 draftCafe emptyState).1.queue =
        [SyncOp.ADD (buildNewPOI draftCafe "temp-1" 0) 0] ∧
      (deletePOI failingRemote 1 "temp-1"
          (addPOI failingRemote "temp-1" 0 draftCafe emptyState).1).1.queue =
        [SyncOp.ADD (buildNewPOI draftCafe "temp-1" 0) 0,
          SyncOp.DELETE "temp-1" 1] ∧
      RemoteCall.deleteCall "temp-1" ∈
        (processSyncQueue okRemote
          (deletePOI failingRemote 1 "temp-1"
            (addPOI failingRemote "temp-1" 0 draftCafe emptyState).1).1).2 :=
  ⟨by decide, by decide, by decide⟩

/-! ### C9 -/

theorem ite_empty_default_str (sv : String) : (if sv = "" then "" else sv) = sv := by
  by_cases h : sv = "" <;> simp [h]

theorem ite_zero_default_int (x : Int) : (if x = 0 then 0 else x) = x := by
  by_cases h : x = 0 <;> simp [h]

theorem ensurePOI_serializePOI (p : POI) (h : p.name ≠ "") :
    ensurePOI (serializePOI p) = p := by
  unfold ensurePOI serializePOI
  rw [if_neg h, ite_empty_default_str p.description,
    ite_zero_default_int p.latitude, ite_zero_default_int p.longitude]

/-- A record whose name is the empty string. -/
def emptyNamePOI : POI :=
  { id := "1", name := "", description := "d", latitude := 3, longitude := 4,
    createdAt := 5 }

/-- Counterexample to C9: a snapshot of one record whose name is the empty
string does not round-trip — on reload `ensurePOI` substitutes the default
name "Unnamed POI", so the reloaded list is not deep-equal to the
original. -/
theorem roundTrip_empty_name_counterexample :
    loadSnapshot (saveSnapshot [emptyNamePOI]) ≠ [emptyNamePOI] ∧
      loadSnapshot (saveSnapshot [emptyNamePOI]) =
        [{ emptyNamePOI with name := "Unnamed POI" }] :=
  ⟨by decide, by decide⟩

/-- C9 amended: for every snapshot all of whose records have a non-empty
name (in particular for N = 0, 1, 3 records), persisting and reloading it
through the storage layer yields a list deep-equal to the original — same
order, same ids, and name, description, latitude, longitude and createdAt
round-trip without loss.  A record with an empty name instead reloads with
the substituted default name. -/
theorem roundTrip_deep_equal (l : List POI) (h : ∀ p ∈ l, p.name ≠ "") :
    loadSnapshot (saveSnapshot l) = l := by
  induction l with
  | nil => rfl
  | cons p rest ih =>
    unfold loadSnapshot saveSnapshot at *
    simp only [List.map_cons]
    rw [ensurePOI_serializePOI p (h p (List.mem_cons_self p rest)),
      ih fun q hq => h q (List.mem_cons_of_mem p hq)]

/-- A three-record snapshot with all fields exercised. -/
def threeSnapshot : List POI :=
  [aPOI,
    { id := "2", name := "Park", description := "green", latitude := 5,
      longitude := 6, createdAt := 10 },
    { id := "3", name := "Pier", description := "", latitude := -7,
      longitude := 8, createdAt := 20 }]

/-- Witness for the amended C9 at N = 0, 1 and 3. -/
theorem roundTrip_deep_equal_witness :
    loadSnapshot (saveSnapshot []) = [] ∧
      loadSnapshot (saveSnapshot [aPOI]) = [aPOI] ∧
      loadSnapshot (saveSnapshot threeSnapshot) = threeSnapshot :=
  ⟨roundTrip_deep_equal [] (by decide), roundTrip_deep_equal [aPOI] (by decide),
    roundTrip_deep_equal threeSnapshot (by decide)⟩

/-! ### C10 -/

/-- C10: for an id matching no snapshot record, `updatePOI` and `deletePOI`
leave the snapshot unchanged (the persisted copy is rewritten with that very
same list), still dispatch the remote call for that id, and, when that
remote call fails, still append the corresponding Update or Delete
operation to the Queue. -/
theorem missing_id_mutations_frame (r : Remote) (s : EngineState) (now : Nat)
    (id : String) (u : PartialPOI)
    (h : ∀ p ∈ s.pois, p.id ≠ id) :
    ((updatePOI r now id u s).1.pois = s.pois ∧
      (updatePOI r now id u s).1.storedPois = s.pois ∧
      (updatePOI r now id u s).2.1 = [RemoteCall.updateCall id u] ∧
      ∀ e, r.updatePOI id u = .error e →
        (updatePOI r now id u s).1.queue = s.queue ++ [.UPDATE u id now]) ∧
    ((deletePOI r now id s).1.pois = s.pois ∧
      (deletePOI r now id s).1.storedPois = s.pois ∧
      (deletePOI r now id s).2 = [RemoteCall.deleteCall id] ∧
      ∀ e, r.deletePOI id = .error e →
        (deletePOI r now id s).1.queue = s.queue ++ [.DELETE id now]) := by
  have hmap1 : (s.pois.map fun poi =>
      if poi.id = id then applyUpdates poi u id else poi) = s.pois :=
    map_ite_id_of_ne id (fun poi => applyUpdates poi u id) s.pois h
  have hfil : (s.pois.filter fun poi => poi.id != id) = s.pois :=
    filter_ne_id_of_ne id s.pois h
  constructor
  · cases hr : r.updatePOI id u with
    | ok saved =>
      rw [updatePOI_ok r now id u s saved hr]
      dsimp only
      rw [hmap1, map_replace_of_ne id saved s.pois h]
      exact ⟨rfl, rfl, rfl, fun e he => Except.noConfusion he⟩
    | error e0 =>
      rw [updatePOI_err r now id u s e0 hr]
      dsimp only
      rw [hmap1]
      exact ⟨rfl, rfl, rfl, fun e he => rfl⟩
  · cases hr : r.deletePOI id with
    | ok u0 =>
      cases u0
      rw [deletePOI_ok r now id s hr]
      dsimp only
      rw [hfil]
      exact ⟨rfl, rfl, rfl, fun e he => Except.noConfusion he⟩
    | error e0 =>
      rw [deletePOI_err r now id s e0 hr]
      dsimp only
      rw [hfil]
      exact ⟨rfl, rfl, rfl, fun e he => rfl⟩

/-- Witness for C10: mutations targeting the absent id "zzz" against the
unreachable remote leave the snapshot untouched, dispatch the calls, and
queue the operations. -/
theorem missing_id_mutations_frame_witness :
    (updatePOI failingRemote 5 "zzz" updA stateQueuedAdd).1.pois =
        stateQueuedAdd.pois ∧
      (updatePOI failingRemote 5 "zzz" updA stateQueuedAdd).2.1 =
        [RemoteCall.updateCall "zzz" updA] ∧
      (updatePOI failingRemote 5 "zzz" updA stateQueuedAdd).1.queue =
        stateQueuedAdd.queue ++ [.UPDATE updA "zzz" 5] ∧
      (deletePOI failingRemote 5 "zzz" stateQueuedAdd).1.pois =
        stateQueuedAdd.pois ∧
      (deletePOI failingRemote 5 "zzz" stateQueuedAdd).2 =
        [RemoteCall.deleteCall "zzz"] ∧
      (deletePOI failingRemote 5 "zzz" stateQueuedAdd).1.queue =
        stateQueuedAdd.queue ++ [.DELETE "zzz" 5] := by
  obtain ⟨⟨hu1, hu2, hu3, hu4⟩, hd1, hd2, hd3, hd4⟩ :=
    missing_id_mutations_frame failingRemote stateQueuedAdd 5 "zzz" updA
      (by decide)
  exact ⟨hu1, hu3, hu4 .network rfl, hd1, hd3, hd4 .network rfl⟩

end GeoTracker
